import Mathlib

/-!
Verification of the medreserve-backend booking core.

The development gives a shallow embedding of the repository's reservation
coordinator, ownership ledger and expiry sweeper:

- the store (tables slots, bookings, booking_slots) is a record of lists,
  mirroring the SQL schema in the bootstrap script (slots ids are SERIAL and
  hence positive; booking_slots carries a UNIQUE constraint on slot_id);
- src/services/bookingService.js createBooking and
  src/controllers/bookingController.js bookSlot become pure functions from a
  store to an HTTP status and a new store, with transactions modelled by
  returning the original store on every rollback path;
- src/src/jobs/bookingExpiryJob.js runExpiryCheck becomes a pure tick
  function whose storage query either succeeds or fails with an injected
  driver error, matching the try/catch structure of the job.

Time is an abstract Nat supplied by the caller (the SQL NOW() inside one
transaction is a single value, as in PostgreSQL).
-/

set_option autoImplicit false

namespace MedReserve

/-- Reservation lifecycle status: PENDING, CONFIRMED or FAILED
(bookings.status CHECK constraint in the schema). -/
inductive BStatus where
  | pending
  | confirmed
  | failed
deriving DecidableEq

/-- One row of the bookings table. -/
structure Booking where
  id : Nat
  slot_id : Nat
  patient_name : String
  status : BStatus
  created_at : Nat
  updated_at : Nat
  expires_at : Option Nat
deriving DecidableEq

/-- One row of the booking_slots table (the ownership ledger). -/
structure OwnershipRow where
  booking_id : Nat
  slot_id : Nat
deriving DecidableEq

/-- The durable store: the three tables the booking core touches, plus a flag
recording whether the expires_at migration has run (the sweeper probes
information_schema for it). -/
structure Store where
  slots : List Nat
  bookings : List Booking
  booking_slots : List OwnershipRow
  hasExpiresAt : Bool
deriving DecidableEq

/-- The empty store before schema migration. -/
def initialStore : Store :=
  { slots := [], bookings := [], booking_slots := [], hasExpiresAt := false }

/-- The fixed grace period: INTERVAL 2 minutes, in seconds. -/
def graceSeconds : Nat := 120

/-- Fresh SERIAL id for a bookings insert: strictly above every existing id. -/
def freshBookingId (bs : List Booking) : Nat :=
  bs.foldr (fun b m => max (b.id + 1) m) 0

/-- Fresh SERIAL id for a slots insert: positive and strictly above every
existing id. -/
def freshSlotId (sl : List Nat) : Nat :=
  sl.foldr (fun s m => max (s + 1) m) 1

/-- Number of ownership rows for a given slot. -/
def ownCount (s : Nat) (st : Store) : Nat :=
  st.booking_slots.countP (fun r => r.slot_id == s)

/-- Error thrown by the booking service; statusCode is set only for the
domain-specific 409 conflict (unique violation 23505). -/
structure SvcError where
  statusCode : Option Nat
  message : String
deriving DecidableEq

/-- The row written by the INSERT INTO bookings statement both booking
variants share: status PENDING, created_at and updated_at defaulted to
NOW(), expires_at two minutes out. -/
def pendingRow (slotId : Nat) (patientName : String) (now bid : Nat) : Booking :=
  { id := bid, slot_id := slotId, patient_name := patientName,
    status := BStatus.pending, created_at := now, updated_at := now,
    expires_at := some (now + graceSeconds) }

/-- The UPDATE bookings SET status CONFIRMED, updated_at NOW() WHERE id
statement applied to one row. -/
def confirmRow (bid now : Nat) (b : Booking) : Booking :=
  if b.id == bid then { b with status := BStatus.confirmed, updated_at := now } else b

/-- Embedding of createBooking in src/services/bookingService.js.

BEGIN; INSERT a PENDING booking with expires_at = now + 2 minutes. The INSERT
statement names the expires_at column, so on an un-migrated schema it is
rejected with undefined-column error 42703 before anything else (the outer
catch rolls back and rethrows, with no statusCode); with the column present
it is rejected by the bookings.slot_id foreign key when the slot does not
exist. Then INSERT into booking_slots, which fails with unique violation
23505 when an ownership row for the slot already exists, in which case the
whole transaction is rolled back and an error with statusCode 409 is thrown;
otherwise UPDATE the booking to CONFIRMED and COMMIT. -/
def createBooking (slotId : Nat) (patientName : String) (now : Nat) (st : Store) :
    Except SvcError Booking × Store :=
  if st.hasExpiresAt = false then
    (Except.error { statusCode := none, message := "column expires_at of relation bookings does not exist" },
     st)
  else if slotId ∈ st.slots then
    let bid := freshBookingId st.bookings
    let row := pendingRow slotId patientName now bid
    let inTx : Store := { st with bookings := st.bookings ++ [row] }
    if inTx.booking_slots.any (fun r => r.slot_id == slotId) then
      (Except.error { statusCode := some 409, message := "Slot already booked" }, st)
    else
      let withOwn : Store :=
        { inTx with booking_slots :=
            inTx.booking_slots ++ [{ booking_id := bid, slot_id := slotId }] }
      let committed : Store :=
        { withOwn with bookings := withOwn.bookings.map (confirmRow bid now) }
      (Except.ok (confirmRow bid now row), committed)
  else
    (Except.error { statusCode := none, message := "insert or update on table bookings violates foreign key constraint" },
     st)

/-- Embedding of the createBooking controller in
src/controllers/bookingController.js (the service-backed variant): it
validates patientName, then forwards to the service; an error carrying a
statusCode is surfaced with that status, anything else reaches the error
handler middleware as a 500. -/
def createBookingEndpoint (slotId : Nat) (patientName : String) (now : Nat) (st : Store) :
    Nat × Store :=
  if patientName = "" then (400, st)
  else
    match createBooking slotId patientName now st with
    | (Except.ok _, st1) => (201, st1)
    | (Except.error e, st1) =>
      match e.statusCode with
      | some c => (c, st1)
      | none => (500, st1)

/-- Storage events observable from a request handler: pool checkout, a query,
and release back to the pool. -/
inductive StorageEv where
  | connect
  | queryEv (sql : String)
  | release
deriving DecidableEq

/-- The outcome of one HTTP request through the lock-based controller:
status code, resulting store, and the storage events in order. -/
structure HttpResult where
  status : Nat
  store : Store
  events : List StorageEv
deriving DecidableEq

/-- Embedding of bookSlot in src/controllers/bookingController.js.

The handler acquires a pooled client first, then validates
(parseInt of the route param is falsy for 0/NaN, and a missing or empty
patient_name is falsy), then BEGIN, SELECT ... FOR UPDATE (404 when the slot
is absent; this statement never touches expires_at), INSERT the PENDING
booking — a statement naming expires_at, so on an un-migrated schema it
fails with undefined-column error 42703, is rolled back and reaches the
error middleware as a 500 — then INSERT into booking_slots (unique
violation 23505 gives a 409 rollback), UPDATE to CONFIRMED, COMMIT.
The client is released on every path. -/
def bookSlot (slotId : Nat) (patient_name : String) (now : Nat) (st : Store) : HttpResult :=
  if slotId = 0 ∨ patient_name = "" then
    { status := 400, store := st, events := [StorageEv.connect, StorageEv.release] }
  else if slotId ∈ st.slots then
    if st.hasExpiresAt = false then
      { status := 500, store := st,
        events := [StorageEv.connect, StorageEv.queryEv "BEGIN",
          StorageEv.queryEv "SELECT id FROM slots WHERE id FOR UPDATE",
          StorageEv.queryEv "INSERT INTO bookings",
          StorageEv.queryEv "ROLLBACK", StorageEv.release] }
    else
      let bid := freshBookingId st.bookings
      let row := pendingRow slotId patient_name now bid
      let inTx : Store := { st with bookings := st.bookings ++ [row] }
      if inTx.booking_slots.any (fun r => r.slot_id == slotId) then
        { status := 409, store := st,
          events := [StorageEv.connect, StorageEv.queryEv "BEGIN",
            StorageEv.queryEv "SELECT id FROM slots WHERE id FOR UPDATE",
            StorageEv.queryEv "INSERT INTO bookings",
            StorageEv.queryEv "INSERT INTO booking_slots",
            StorageEv.queryEv "ROLLBACK", StorageEv.release] }
      else
        let withOwn : Store :=
          { inTx with booking_slots :=
              inTx.booking_slots ++ [{ booking_id := bid, slot_id := slotId }] }
        let committed : Store :=
          { withOwn with bookings := withOwn.bookings.map (confirmRow bid now) }
        { status := 201, store := committed,
          events := [StorageEv.connect, StorageEv.queryEv "BEGIN",
            StorageEv.queryEv "SELECT id FROM slots WHERE id FOR UPDATE",
            StorageEv.queryEv "INSERT INTO bookings",
            StorageEv.queryEv "INSERT INTO booking_slots",
            StorageEv.queryEv "UPDATE bookings SET status CONFIRMED",
            StorageEv.queryEv "COMMIT", StorageEv.release] }
  else
    { status := 404, store := st,
      events := [StorageEv.connect, StorageEv.queryEv "BEGIN",
        StorageEv.queryEv "SELECT id FROM slots WHERE id FOR UPDATE",
        StorageEv.queryEv "ROLLBACK", StorageEv.release] }

/-- Embedding of createSlot in src/routes/admin.routes.js at the store level:
a new slot row with a fresh SERIAL id. -/
def createSlot (st : Store) : Store :=
  { st with slots := st.slots ++ [freshSlotId st.slots] }

/-- In-process state of the expiry job: the timestamp of the last reported
connection error (the lastConnectionError expando on runExpiryCheck). -/
structure JobState where
  lastConnectionError : Option Nat
deriving DecidableEq

/-- A driver error surfaced by pool.query: its code and message. -/
structure DbError where
  code : String
  message : String
deriving DecidableEq

/-- Log lines the expiry job can emit on one tick. -/
inductive LogEv where
  | columnMissingWarn
  | sweptCount (n : Nat)
  | connIssueWarn
  | expiresAtColumnError
  | genericError
deriving DecidableEq

/-- Result of one tick of the expiry job: the count of rows transitioned
(none when the sweep was skipped or errored), the store, the job state, the
log lines emitted, and whether the tick crashed the process. -/
structure TickResult where
  swept : Option Nat
  store : Store
  job : JobState
  logs : List LogEv
  fatal : Bool
deriving DecidableEq

/-- Connection-failure codes recognized by the job's catch handler. -/
def isConnCode (c : String) : Bool :=
  c == "ECONNREFUSED" || c == "ETIMEDOUT" || c == "ENOTFOUND"

/-- Whether pat occurs as a contiguous substring of the character list. -/
def listHasSub (pat : List Char) : List Char → Bool
  | [] => pat.isEmpty
  | c :: t => pat.isPrefixOf (c :: t) || listHasSub pat t

/-- Whether pat occurs as a substring of hay (String.prototype.includes). -/
def strHasSub (hay pat : String) : Bool :=
  listHasSub pat.toList hay.toList

/-- The WHERE clause of the sweep UPDATE: status PENDING, expires_at not
null, expires_at at or before now. -/
def isExpired (now : Nat) (b : Booking) : Bool :=
  match b.status, b.expires_at with
  | BStatus.pending, some d => d ≤ now
  | _, _ => false

/-- The SET clause of the sweep UPDATE applied to one row. -/
def sweepBooking (now : Nat) (b : Booking) : Booking :=
  if isExpired now b then { b with status := BStatus.failed, updated_at := now } else b

/-- The catch handler of runExpiryCheck: connection errors are reported at
most once per 60000 ms via lastConnectionError; a message mentioning
expires_at gets the migration hint; everything else is logged as an error.
The error is swallowed, never rethrown. -/
def onTickError (e : DbError) (now : Nat) (st : Store) (jb : JobState) : TickResult :=
  if isConnCode e.code then
    match jb.lastConnectionError with
    | none =>
      { swept := none, store := st, job := { lastConnectionError := some now },
        logs := [LogEv.connIssueWarn], fatal := false }
    | some t =>
      if 60000 < now - t then
        { swept := none, store := st, job := { lastConnectionError := some now },
          logs := [LogEv.connIssueWarn], fatal := false }
      else
        { swept := none, store := st, job := jb, logs := [], fatal := false }
  else if strHasSub e.message "expires_at" then
    { swept := none, store := st, job := jb,
      logs := [LogEv.expiresAtColumnError], fatal := false }
  else
    { swept := none, store := st, job := jb,
      logs := [LogEv.genericError], fatal := false }

/-- Embedding of runExpiryCheck in src/src/jobs/bookingExpiryJob.js.

The failure argument injects the outcome of the tick's storage access: some
driver error, or none when the queries succeed. On success the job first
probes information_schema for the expires_at column and, when it is missing,
warns and skips; otherwise it runs the UPDATE moving every expired PENDING
booking to FAILED, refreshing updated_at, and logs the count when positive. -/
def runExpiryCheck (failure : Option DbError) (now : Nat) (st : Store) (jb : JobState) :
    TickResult :=
  match failure with
  | some e => onTickError e now st jb
  | none =>
    if st.hasExpiresAt then
      let n := st.bookings.countP (isExpired now)
      { swept := some n,
        store := { st with bookings := st.bookings.map (sweepBooking now) },
        job := jb,
        logs := if 0 < n then [LogEv.sweptCount n] else [],
        fatal := false }
    else
      { swept := none, store := st, job := jb,
        logs := [LogEv.columnMissingWarn], fatal := false }

/-- Embedding of runExpiresAtMigration in the database initialization module:
adds the expires_at column and backfills pending rows lacking a deadline. -/
def runExpiresAtMigration (st : Store) : Store :=
  if st.hasExpiresAt then st
  else
    { st with
      hasExpiresAt := true,
      bookings := st.bookings.map (fun b =>
        if b.status == BStatus.pending && b.expires_at.isNone then
          { b with expires_at := some (b.created_at + graceSeconds) }
        else b) }

def sampleBooking : Booking :=
  { id := 1, slot_id := 1, patient_name := "A", status := BStatus.pending,
    created_at := 0, updated_at := 0, expires_at := some 120 }

def sampleStore : Store :=
  { slots := [1], bookings := [sampleBooking], booking_slots := [],
    hasExpiresAt := true }

/-- One atomic interaction with the store: either booking variant, a sweeper
tick (with any injected query outcome), slot creation, or the expires_at
migration. -/
inductive Step : Store → Store → Prop where
  | svc (slotId : Nat) (name : String) (now : Nat) (st : Store) :
      Step st (createBookingEndpoint slotId name now st).2
  | ctrl (slotId : Nat) (name : String) (now : Nat) (st : Store) :
      Step st (bookSlot slotId name now st).store
  | sweep (failure : Option DbError) (now : Nat) (jb : JobState) (st : Store) :
      Step st (runExpiryCheck failure now st jb).store
  | newSlot (st : Store) :
      Step st (createSlot st)
  | migrate (st : Store) :
      Step st (runExpiresAtMigration st)

/-- A store is reachable when some sequence of operations produces it from
the empty pre-migration store. -/
def Reachable (st : Store) : Prop :=
  Relation.ReflTransGen Step initialStore st

/-- The per-slot uniqueness invariant of the ownership ledger: no two
booking_slots rows name the same slot. -/
def OwnUnique (st : Store) : Prop :=
  (st.booking_slots.map (fun r => r.slot_id)).Nodup

/-- Slot ids are SERIAL, hence positive. -/
def SlotsPos (st : Store) : Prop :=
  ∀ s ∈ st.slots, 0 < s

/-- The committed store of a winning claim, shared by both booking variants. -/
def committedStore (s : Nat) (n : String) (now : Nat) (st : Store) : Store :=
  { st with
    bookings := (st.bookings ++ [pendingRow s n now (freshBookingId st.bookings)]).map
      (confirmRow (freshBookingId st.bookings) now),
    booking_slots := st.booking_slots ++
      [{ booking_id := freshBookingId st.bookings, slot_id := s }] }

/-- A concrete store whose only slot is already owned by a confirmed
booking. -/
def ownedStore : Store :=
  { slots := [1],
    bookings :=
      [{ id := 1, slot_id := 1, patient_name := "Alice",
         status := BStatus.confirmed, created_at := 0, updated_at := 0,
         expires_at := some 120 }],
    booking_slots := [{ booking_id := 1, slot_id := 1 }],
    hasExpiresAt := true }

/-- The gate of the job's connection-error log: it fires when no connection
error was ever reported or the last report lies more than 60000 ms back. -/
def connLogDue (jb : JobState) (now : Nat) : Bool :=
  match jb.lastConnectionError with
  | none => true
  | some t => decide (60000 < now - t)

/-- A concrete migrated store holding only slot 1. -/
def oneSlotStore : Store :=
  { slots := [1], bookings := [], booking_slots := [], hasExpiresAt := true }

/-- A storm of claim requests against one slot, serialized by the storage
layer: each request runs the service-variant claim transaction in turn. -/
def storm (s : Nat) (now : Nat) : List String → Store → List Nat × Store
  | [], st => ([], st)
  | n :: ns, st =>
    let r := createBookingEndpoint s n now st
    let rest := storm s now ns r.2
    (r.1 :: rest.1, rest.2)

lemma id_lt_freshBookingId {b : Booking} {bs : List Booking} (h : b ∈ bs) :
    b.id < freshBookingId bs := by
  induction bs with
  | nil => cases h
  | cons x t ih =>
    rcases List.mem_cons.mp h with rfl | h
    · exact Nat.lt_of_lt_of_le (Nat.lt_succ_self _) (Nat.le_max_left _ _)
    · exact Nat.lt_of_lt_of_le (ih h) (Nat.le_max_right _ _)

lemma one_le_freshSlotId (sl : List Nat) : 1 ≤ freshSlotId sl := by
  induction sl with
  | nil => exact Nat.le_refl 1
  | cons s t ih => exact Nat.le_trans ih (Nat.le_max_right _ _)

lemma any_slot_eq_false_iff (s : Nat) (l : List OwnershipRow) :
    l.any (fun r => r.slot_id == s) = false ↔ ∀ r ∈ l, r.slot_id ≠ s := by
  simp [List.any_eq_false]

lemma ownCount_eq_zero_iff (s : Nat) (st : Store) :
    ownCount s st = 0 ↔ st.booking_slots.any (fun r => r.slot_id == s) = false := by
  unfold ownCount
  rw [List.countP_eq_zero, List.any_eq_false]

lemma svcEndpoint_conflict {s : Nat} {st : Store} {n : String} (now : Nat)
    (hcol : st.hasExpiresAt = true) (hn : n ≠ "") (hs : s ∈ st.slots)
    (ht : st.booking_slots.any (fun r => r.slot_id == s) = true) :
    createBookingEndpoint s n now st = (409, st) := by
  simp [createBookingEndpoint, createBooking, hcol, hn, hs, ht]

lemma svcEndpoint_notfound {s : Nat} {st : Store} {n : String} (now : Nat)
    (hn : n ≠ "") (hs : s ∉ st.slots) :
    createBookingEndpoint s n now st = (500, st) := by
  by_cases hcol : st.hasExpiresAt = true <;>
    simp [createBookingEndpoint, createBooking, hcol, hn, hs]

lemma svcEndpoint_nocol {s : Nat} {st : Store} {n : String} (now : Nat)
    (hcol : st.hasExpiresAt = false) (hn : n ≠ "") :
    createBookingEndpoint s n now st = (500, st) := by
  simp [createBookingEndpoint, createBooking, hcol, hn]

lemma svcEndpoint_win {s : Nat} {st : Store} {n : String} (now : Nat)
    (hcol : st.hasExpiresAt = true) (hn : n ≠ "") (hs : s ∈ st.slots)
    (ht : st.booking_slots.any (fun r => r.slot_id == s) = false) :
    createBookingEndpoint s n now st = (201, committedStore s n now st) := by
  simp [createBookingEndpoint, createBooking, committedStore, hcol, hn, hs, ht]

lemma bookSlot_conflict {s : Nat} {st : Store} {n : String} (now : Nat)
    (hcol : st.hasExpiresAt = true) (h0 : s ≠ 0) (hn : n ≠ "") (hs : s ∈ st.slots)
    (ht : st.booking_slots.any (fun r => r.slot_id == s) = true) :
    (bookSlot s n now st).status = 409 ∧ (bookSlot s n now st).store = st := by
  simp [bookSlot, hcol, h0, hn, hs, ht]

lemma bookSlot_notfound {s : Nat} {st : Store} {n : String} (now : Nat)
    (h0 : s ≠ 0) (hn : n ≠ "") (hs : s ∉ st.slots) :
    (bookSlot s n now st).status = 404 ∧ (bookSlot s n now st).store = st := by
  simp [bookSlot, h0, hn, hs]

lemma bookSlot_nocol {s : Nat} {st : Store} {n : String} (now : Nat)
    (hcol : st.hasExpiresAt = false) (h0 : s ≠ 0) (hn : n ≠ "") (hs : s ∈ st.slots) :
    (bookSlot s n now st).status = 500 ∧ (bookSlot s n now st).store = st := by
  simp [bookSlot, hcol, h0, hn, hs]

lemma bookSlot_win {s : Nat} {st : Store} {n : String} (now : Nat)
    (hcol : st.hasExpiresAt = true) (h0 : s ≠ 0) (hn : n ≠ "") (hs : s ∈ st.slots)
    (ht : st.booking_slots.any (fun r => r.slot_id == s) = false) :
    (bookSlot s n now st).status = 201 ∧
      (bookSlot s n now st).store = committedStore s n now st := by
  simp [bookSlot, committedStore, hcol, h0, hn, hs, ht]

lemma onTickError_frame (e : DbError) (now : Nat) (st : Store) (jb : JobState) :
    (onTickError e now st jb).store = st ∧ (onTickError e now st jb).swept = none ∧
      (onTickError e now st jb).fatal = false := by
  unfold onTickError
  by_cases hc : isConnCode e.code
  · rcases hjb : jb.lastConnectionError with _ | t
    · simp [hc, hjb]
    · by_cases ho : 60000 < now - t <;> simp [hc, hjb, ho]
  · by_cases hm : strHasSub e.message "expires_at" <;> simp [hc, hm]

lemma runExpiryCheck_frame (failure : Option DbError) (now : Nat) (st : Store)
    (jb : JobState) :
    ((runExpiryCheck failure now st jb).store).slots = st.slots ∧
    ((runExpiryCheck failure now st jb).store).booking_slots = st.booking_slots ∧
    ((runExpiryCheck failure now st jb).store).hasExpiresAt = st.hasExpiresAt ∧
    (runExpiryCheck failure now st jb).fatal = false := by
  cases failure with
  | some e =>
    have h := onTickError_frame e now st jb
    simp [runExpiryCheck, h.1, h.2.2]
  | none => by_cases hcol : st.hasExpiresAt <;> simp [runExpiryCheck, hcol]

lemma svcEndpoint_shape (s : Nat) (n : String) (now : Nat) (st : Store) :
    (createBookingEndpoint s n now st).2 = st ∨
    (st.booking_slots.any (fun r => r.slot_id == s) = false ∧
      (createBookingEndpoint s n now st).2 = committedStore s n now st) := by
  by_cases hn : n = ""
  · left; simp [createBookingEndpoint, hn]
  · by_cases hcol : st.hasExpiresAt = true
    · by_cases hs : s ∈ st.slots
      · by_cases ht : st.booking_slots.any (fun r => r.slot_id == s) = true
        · left; rw [svcEndpoint_conflict now hcol hn hs ht]
        · right
          have ht' : st.booking_slots.any (fun r => r.slot_id == s) = false := by
            simpa using ht
          rw [svcEndpoint_win now hcol hn hs ht']
          exact ⟨ht', rfl⟩
      · left; rw [svcEndpoint_notfound now hn hs]
    · left
      rw [svcEndpoint_nocol now (by simpa using hcol) hn]

lemma bookSlot_shape (s : Nat) (n : String) (now : Nat) (st : Store) :
    (bookSlot s n now st).store = st ∨
    (st.booking_slots.any (fun r => r.slot_id == s) = false ∧
      (bookSlot s n now st).store = committedStore s n now st) := by
  by_cases h0 : s = 0
  · left; simp [bookSlot, h0]
  · by_cases hn : n = ""
    · left; simp [bookSlot, hn]
    · by_cases hcol : st.hasExpiresAt = true
      · by_cases hs : s ∈ st.slots
        · by_cases ht : st.booking_slots.any (fun r => r.slot_id == s) = true
          · left; exact (bookSlot_conflict now hcol h0 hn hs ht).2
          · right
            have ht' : st.booking_slots.any (fun r => r.slot_id == s) = false := by
              simpa using ht
            exact ⟨ht', (bookSlot_win now hcol h0 hn hs ht').2⟩
        · left; exact (bookSlot_notfound now h0 hn hs).2
      · by_cases hs : s ∈ st.slots
        · left; exact (bookSlot_nocol now (by simpa using hcol) h0 hn hs).2
        · left; exact (bookSlot_notfound now h0 hn hs).2

lemma committed_ownUnique {s : Nat} {st : Store} (n : String) (now : Nat)
    (hf : st.booking_slots.any (fun r => r.slot_id == s) = false)
    (hu : OwnUnique st) : OwnUnique (committedStore s n now st) := by
  unfold OwnUnique committedStore
  simp only [List.map_append, List.map_cons, List.map_nil]
  refine List.Nodup.append hu (List.nodup_singleton s) ?_
  rw [List.disjoint_singleton]
  rw [any_slot_eq_false_iff] at hf
  simp only [List.mem_map]
  rintro ⟨r, hr, hrs⟩
  exact hf r hr hrs

lemma step_ownUnique {st st' : Store} (h : Step st st') (hu : OwnUnique st) :
    OwnUnique st' := by
  cases h with
  | svc s n now st =>
    rcases svcEndpoint_shape s n now st with heq | ⟨hf, heq⟩
    · rw [OwnUnique, heq]; exact hu
    · rw [OwnUnique, heq]; exact committed_ownUnique n now hf hu
  | ctrl s n now st =>
    rcases bookSlot_shape s n now st with heq | ⟨hf, heq⟩
    · rw [OwnUnique, heq]; exact hu
    · rw [OwnUnique, heq]; exact committed_ownUnique n now hf hu
  | sweep failure now jb st =>
    have h := runExpiryCheck_frame failure now st jb
    rw [OwnUnique, h.2.1]; exact hu
  | newSlot st => exact hu
  | migrate st =>
    unfold OwnUnique runExpiresAtMigration
    by_cases hcol : st.hasExpiresAt <;> simp [hcol] <;> exact hu

lemma step_slotsPos {st st' : Store} (h : Step st st') (hp : SlotsPos st) :
    SlotsPos st' := by
  cases h with
  | svc s n now st =>
    rcases svcEndpoint_shape s n now st with heq | ⟨_, heq⟩ <;>
      rw [SlotsPos, heq] <;> exact hp
  | ctrl s n now st =>
    rcases bookSlot_shape s n now st with heq | ⟨_, heq⟩ <;>
      rw [SlotsPos, heq] <;> exact hp
  | sweep failure now jb st =>
    have h := runExpiryCheck_frame failure now st jb
    rw [SlotsPos, h.1]; exact hp
  | newSlot st =>
    intro x hx
    rcases List.mem_append.mp hx with hx | hx
    · exact hp x hx
    · rcases List.mem_singleton.mp hx with rfl
      exact Nat.lt_of_lt_of_le Nat.zero_lt_one (one_le_freshSlotId st.slots)
  | migrate st =>
    unfold SlotsPos runExpiresAtMigration
    by_cases hcol : st.hasExpiresAt <;> simp [hcol] <;> exact hp

lemma reachable_inv {st : Store} (h : Reachable st) : OwnUnique st ∧ SlotsPos st := by
  induction h with
  | refl =>
    constructor
    · simp [OwnUnique, initialStore]
    · intro s hs; simp [initialStore] at hs
  | tail _ hstep ih =>
    exact ⟨step_ownUnique hstep ih.1, step_slotsPos hstep ih.2⟩

lemma any_eq_true_of_ownCount_pos {s : Nat} {st : Store} (h : 0 < ownCount s st) :
    st.booking_slots.any (fun r => r.slot_id == s) = true := by
  cases ha : st.booking_slots.any (fun r => r.slot_id == s) with
  | true => rfl
  | false =>
    rw [← ownCount_eq_zero_iff] at ha
    omega

lemma isExpired_eq_true_iff (now : Nat) (b : Booking) :
    isExpired now b = true ↔
      b.status = BStatus.pending ∧ ∃ d, b.expires_at = some d ∧ d ≤ now := by
  rcases b with ⟨id, sl, pn, status, c, u, ex⟩
  cases status <;> cases ex <;> simp [isExpired]

lemma isExpired_sweepBooking (now : Nat) (b : Booking) :
    isExpired now (sweepBooking now b) = false := by
  unfold sweepBooking
  by_cases h : isExpired now b = true
  · rw [if_pos h]
    rcases b with ⟨id, sl, pn, status, c, u, ex⟩
    cases ex <;> simp [isExpired]
  · rw [if_neg h]
    simpa using h

lemma sweepBooking_idem (now : Nat) (b : Booking) :
    sweepBooking now (sweepBooking now b) = sweepBooking now b := by
  have h := isExpired_sweepBooking now b
  rw [sweepBooking, h]
  simp

lemma runExpiryCheck_ok_store (now : Nat) (st : Store) (jb : JobState)
    (hcol : st.hasExpiresAt = true) :
    (runExpiryCheck none now st jb).store =
      { st with bookings := st.bookings.map (sweepBooking now) } := by
  simp [runExpiryCheck, hcol]

lemma runExpiryCheck_ok_swept (now : Nat) (st : Store) (jb : JobState)
    (hcol : st.hasExpiresAt = true) :
    (runExpiryCheck none now st jb).swept =
      some (st.bookings.countP (isExpired now)) := by
  simp [runExpiryCheck, hcol]

lemma runExpiryCheck_missing (now : Nat) (st : Store) (jb : JobState)
    (hcol : st.hasExpiresAt = false) :
    runExpiryCheck none now st jb =
      { swept := none, store := st, job := jb,
        logs := [LogEv.columnMissingWarn], fatal := false } := by
  simp [runExpiryCheck, hcol]

lemma onTickError_conn (e : DbError) (now : Nat) (st : Store) (jb : JobState)
    (hc : isConnCode e.code = true) :
    onTickError e now st jb =
      if connLogDue jb now then
        { swept := none, store := st, job := { lastConnectionError := some now },
          logs := [LogEv.connIssueWarn], fatal := false }
      else
        { swept := none, store := st, job := jb, logs := [], fatal := false } := by
  unfold onTickError connLogDue
  rcases hjb : jb.lastConnectionError with _ | t
  · simp [hc, hjb]
  · by_cases ho : 60000 < now - t <;> simp [hc, hjb, ho]

lemma onTickError_nonconn (e : DbError) (now : Nat) (st : Store) (jb : JobState)
    (hc : isConnCode e.code = false) :
    (onTickError e now st jb).logs ≠ [] ∧ (onTickError e now st jb).job = jb := by
  unfold onTickError
  by_cases hm : strHasSub e.message "expires_at" <;> simp [hc, hm]

lemma committed_get (s : Nat) (nm : String) (now : Nat) (st : Store) (i : Nat)
    (h : i < st.bookings.length) :
    ∃ h2 : i < (committedStore s nm now st).bookings.length,
      (committedStore s nm now st).bookings.get ⟨i, h2⟩ = st.bookings.get ⟨i, h⟩ := by
  have hlen : (committedStore s nm now st).bookings.length = st.bookings.length + 1 := by
    simp [committedStore]
  have h2 : i < (committedStore s nm now st).bookings.length := by omega
  refine ⟨h2, ?_⟩
  have hid : (st.bookings.get ⟨i, h⟩).id ≠ freshBookingId st.bookings :=
    Nat.ne_of_lt (id_lt_freshBookingId (List.get_mem st.bookings i h))
  simp only [List.get_eq_getElem] at hid ⊢
  simp only [committedStore, List.getElem_map]
  rw [List.getElem_append_left h]
  simp [confirmRow, hid]

lemma sweep_bookings_shape (failure : Option DbError) (now : Nat) (st : Store)
    (jb : JobState) :
    ((runExpiryCheck failure now st jb).store).bookings = st.bookings ∨
    ((runExpiryCheck failure now st jb).store).bookings =
      st.bookings.map (sweepBooking now) := by
  cases failure with
  | some e =>
    left
    show ((onTickError e now st jb).store).bookings = st.bookings
    rw [(onTickError_frame e now st jb).1]
  | none =>
    by_cases hcol : st.hasExpiresAt = true
    · right; rw [runExpiryCheck_ok_store now st jb hcol]
    · left
      rw [runExpiryCheck_missing now st jb (by simpa using hcol)]

lemma storm_all_conflict (s now : Nat) (ns : List String) (st : Store)
    (hcol : st.hasExpiresAt = true) (hs : s ∈ st.slots) (hown : 0 < ownCount s st)
    (hns : ∀ n ∈ ns, n ≠ "") :
    storm s now ns st = (List.replicate ns.length 409, st) := by
  induction ns with
  | nil => simp [storm]
  | cons n t ih =>
    have hn : n ≠ "" := hns n (List.mem_cons_self n t)
    have hconf := svcEndpoint_conflict now hcol hn hs (any_eq_true_of_ownCount_pos hown)
    have ihh := ih (fun m hm => hns m (List.mem_cons_of_mem n hm))
    simp [storm, hconf, ihh, List.replicate_succ]

/-- C1: on any reachable store whose schema carries the expires_at column
(the claim INSERT names that column, so claims on an un-migrated schema all
fail with 500 instead), a storm of two or more serialized Claim calls
against an existing, never-claimed slot yields exactly one 201 and 409 for
every other call, leaves exactly one Ownership Record for that slot, and
preserves the ledger invariant that no slot has two Ownership Records. -/
theorem c1_at_most_one_winner (st : Store) (s now : Nat) (names : List String)
    (hreach : Reachable st) (hcol : st.hasExpiresAt = true) (hs : s ∈ st.slots)
    (hfree : ownCount s st = 0) (hlen : 2 ≤ names.length)
    (hnames : ∀ n ∈ names, n ≠ "") :
    (storm s now names st).1.count 201 = 1 ∧
    (storm s now names st).1.count 409 = names.length - 1 ∧
    ownCount s (storm s now names st).2 = 1 ∧
    OwnUnique (storm s now names st).2 := by
  rcases names with _ | ⟨n, ns⟩
  · simp at hlen
  · have hn : n ≠ "" := hnames n (List.mem_cons_self n ns)
    have hany : st.booking_slots.any (fun r => r.slot_id == s) = false :=
      (ownCount_eq_zero_iff s st).mp hfree
    have hwin := svcEndpoint_win now hcol hn hs hany
    have hs1 : s ∈ (committedStore s n now st).slots := hs
    have hcol1 : (committedStore s n now st).hasExpiresAt = true := hcol
    have hown1 : ownCount s (committedStore s n now st) = 1 := by
      have hfree2 : st.booking_slots.countP (fun r => r.slot_id == s) = 0 := hfree
      unfold ownCount committedStore
      simp [List.countP_append, hfree2]
    have hrest := storm_all_conflict s now ns (committedStore s n now st) hcol1 hs1
      (by rw [hown1]; exact Nat.one_pos)
      (fun m hm => hnames m (List.mem_cons_of_mem n hm))
    have hstorm : storm s now (n :: ns) st =
        (201 :: List.replicate ns.length 409, committedStore s n now st) := by
      simp [storm, hwin, hrest]
    rw [hstorm]
    refine ⟨?_, ?_, hown1, committed_ownUnique n now hany (reachable_inv hreach).1⟩
    · simp [List.count_cons, List.count_replicate]
    · simp [List.count_cons, List.count_replicate]

/-- Witness for C1: two claimants race for the single slot of a reachable,
migrated store; one wins, one conflicts, one ownership row remains. -/
theorem c1_at_most_one_winner_witness :
    (storm 1 0 ["Alice", "Bob"]
      (createSlot (runExpiresAtMigration initialStore))).1.count 201 = 1 ∧
    (storm 1 0 ["Alice", "Bob"]
      (createSlot (runExpiresAtMigration initialStore))).1.count 409 = 1 ∧
    ownCount 1 (storm 1 0 ["Alice", "Bob"]
      (createSlot (runExpiresAtMigration initialStore))).2 = 1 := by
  have h := c1_at_most_one_winner (createSlot (runExpiresAtMigration initialStore))
    1 0 ["Alice", "Bob"]
    (Relation.ReflTransGen.tail
      (Relation.ReflTransGen.single (Step.migrate initialStore))
      (Step.newSlot (runExpiresAtMigration initialStore)))
    (by decide) (by decide) (by decide) (by decide)
    (by
      intro m hm
      rcases List.mem_cons.mp hm with rfl | hm
      · decide
      · rcases List.mem_singleton.mp hm with rfl
        decide)
  exact ⟨h.1, h.2.1, h.2.2.1⟩

/-- C2: on a migrated schema (the only kind on which an Ownership Record can
exist, since the claim INSERT fails with 500 before the conflict check while
the expires_at column is absent), a Claim that loses because an Ownership
Record for the slot already exists is rolled back entirely: the store is
returned unchanged (no Reservation row, no Ownership row persisted) and the
caller gets the ConflictError status 409. -/
theorem c2_loser_rolls_back (s : Nat) (name : String) (now : Nat) (st : Store)
    (hcol : st.hasExpiresAt = true) (hname : name ≠ "") (hs : s ∈ st.slots)
    (hown : 0 < ownCount s st) :
    createBookingEndpoint s name now st = (409, st) :=
  svcEndpoint_conflict now hcol hname hs (any_eq_true_of_ownCount_pos hown)

/-- Witness for C2 at a concrete owned slot. -/
theorem c2_loser_rolls_back_witness :
    createBookingEndpoint 1 "Bob" 7 ownedStore = (409, ownedStore) :=
  c2_loser_rolls_back 1 "Bob" 7 ownedStore (by decide) (by decide) (by decide)
    (by decide)

/-- C3 counterexample: claiming a nonexistent slot through the service path
surfaces as a generic 500 (the bookings insert is rejected by the slot_id
foreign key and the error carries no statusCode), not the claimed 404. -/
theorem c3_nonexistent_slot_counterexample :
    (createBookingEndpoint 7 "Alice" 0 oneSlotStore).1 = 500 ∧
    ¬ (createBookingEndpoint 7 "Alice" 0 oneSlotStore).1 = 404 := by
  decide

/-- C3 amended: a Claim naming a nonexistent slot performs no durable writes
on either variant; the lock-based bookSlot variant returns NotFoundError 404,
but the service variant (which never checks slot existence) fails on the
foreign key and surfaces a generic 500, not 404. -/
theorem c3_nonexistent_slot_amended (s : Nat) (name : String) (now : Nat)
    (st : Store) (h0 : s ≠ 0) (hname : name ≠ "") (hs : s ∉ st.slots) :
    (bookSlot s name now st).status = 404 ∧
    (bookSlot s name now st).store = st ∧
    createBookingEndpoint s name now st = (500, st) :=
  ⟨(bookSlot_notfound now h0 hname hs).1, (bookSlot_notfound now h0 hname hs).2,
    svcEndpoint_notfound now hname hs⟩

/-- Witness for the amended C3 at slot 7, absent from the store. -/
theorem c3_nonexistent_slot_amended_witness :
    (bookSlot 7 "Alice" 0 oneSlotStore).status = 404 ∧
    (bookSlot 7 "Alice" 0 oneSlotStore).store = oneSlotStore ∧
    createBookingEndpoint 7 "Alice" 0 oneSlotStore = (500, oneSlotStore) :=
  c3_nonexistent_slot_amended 7 "Alice" 0 oneSlotStore (by decide) (by decide)
    (by decide)

/-- C4: one sweep transitions exactly the PENDING bookings whose deadline is
set and at or before now to FAILED, refreshing updated_at; it returns the
count of transitioned rows, leaves every other booking (in particular a
PENDING one with a future deadline) untouched, and does not touch the slots
or ownership tables. -/
theorem c4_sweep_transitions (st : Store) (jb : JobState) (now : Nat)
    (hcol : st.hasExpiresAt = true) :
    (runExpiryCheck none now st jb).swept =
        some ((st.bookings.filter (isExpired now)).length) ∧
    ((runExpiryCheck none now st jb).store).slots = st.slots ∧
    ((runExpiryCheck none now st jb).store).booking_slots = st.booking_slots ∧
    ((runExpiryCheck none now st jb).store).bookings.length = st.bookings.length ∧
    ∀ i, (h : i < st.bookings.length) →
      ∃ h' : i < ((runExpiryCheck none now st jb).store).bookings.length,
        ((st.bookings.get ⟨i, h⟩).status = BStatus.pending →
          ∀ d, (st.bookings.get ⟨i, h⟩).expires_at = some d → d ≤ now →
            ((runExpiryCheck none now st jb).store).bookings.get ⟨i, h'⟩ =
              { st.bookings.get ⟨i, h⟩ with
                status := BStatus.failed, updated_at := now }) ∧
        (¬ ((st.bookings.get ⟨i, h⟩).status = BStatus.pending ∧
             ∃ d, (st.bookings.get ⟨i, h⟩).expires_at = some d ∧ d ≤ now) →
          ((runExpiryCheck none now st jb).store).bookings.get ⟨i, h'⟩ =
            st.bookings.get ⟨i, h⟩) := by
  have hstore := runExpiryCheck_ok_store now st jb hcol
  refine ⟨?_, ?_, ?_, ?_, ?_⟩
  · rw [runExpiryCheck_ok_swept now st jb hcol, List.countP_eq_length_filter]
  · rw [hstore]
  · rw [hstore]
  · rw [hstore]; exact st.bookings.length_map _
  · intro i h
    simp only [hstore]
    have h' : i < (st.bookings.map (sweepBooking now)).length := by simpa using h
    refine ⟨h', ?_, ?_⟩
    · intro hp d hd hdle
      have hexp : isExpired now (st.bookings.get ⟨i, h⟩) = true := by
        rw [isExpired_eq_true_iff]
        exact ⟨hp, d, hd, hdle⟩
      simp only [List.get_eq_getElem] at hexp
      simp [hstore, sweepBooking, hexp]
    · intro hnot
      have hexp : isExpired now (st.bookings.get ⟨i, h⟩) = false := by
        rw [← Bool.not_eq_true, isExpired_eq_true_iff]
        exact hnot
      simp only [List.get_eq_getElem] at hexp
      simp [hstore, sweepBooking, hexp]

/-- Witness for C4: the sample store holds one expired pending booking. -/
theorem c4_sweep_transitions_witness :
    (runExpiryCheck none 200 sampleStore { lastConnectionError := none }).swept = some 1 ∧
    ((runExpiryCheck none 200 sampleStore
        { lastConnectionError := none }).store).booking_slots =
      sampleStore.booking_slots := by
  have h := c4_sweep_transitions sampleStore { lastConnectionError := none } 200 rfl
  refine ⟨?_, h.2.2.1⟩
  rw [h.1]
  decide

/-- C5: no operation ever changes the status of a pre-existing Reservation
that is CONFIRMED or FAILED; a pre-existing row keeps its id, and its status
either stays the same or moves from PENDING to FAILED (the sweeper
transition). The PENDING to CONFIRMED transition only ever applies to the
row created inside the same atomic claim, never to a pre-existing row. -/
theorem c5_terminal_status_frozen (st st2 : Store) (hstep : Step st st2) (i : Nat)
    (h : i < st.bookings.length) :
    ∃ h2 : i < st2.bookings.length,
      (st2.bookings.get ⟨i, h2⟩).id = (st.bookings.get ⟨i, h⟩).id ∧
      (((st.bookings.get ⟨i, h⟩).status = BStatus.confirmed ∨
          (st.bookings.get ⟨i, h⟩).status = BStatus.failed) →
        (st2.bookings.get ⟨i, h2⟩).status = (st.bookings.get ⟨i, h⟩).status) ∧
      ((st2.bookings.get ⟨i, h2⟩).status = (st.bookings.get ⟨i, h⟩).status ∨
        ((st.bookings.get ⟨i, h⟩).status = BStatus.pending ∧
          (st2.bookings.get ⟨i, h2⟩).status = BStatus.failed)) := by
  cases hstep with
  | svc s nm now st =>
    rcases svcEndpoint_shape s nm now st with heq | ⟨hf, heq⟩
    · rw [heq]
      exact ⟨h, rfl, fun _ => rfl, Or.inl rfl⟩
    · rw [heq]
      obtain ⟨h2, hg⟩ := committed_get s nm now st i h
      exact ⟨h2, by rw [hg], fun _ => by rw [hg], Or.inl (by rw [hg])⟩
  | ctrl s nm now st =>
    rcases bookSlot_shape s nm now st with heq | ⟨hf, heq⟩
    · rw [heq]
      exact ⟨h, rfl, fun _ => rfl, Or.inl rfl⟩
    · rw [heq]
      obtain ⟨h2, hg⟩ := committed_get s nm now st i h
      exact ⟨h2, by rw [hg], fun _ => by rw [hg], Or.inl (by rw [hg])⟩
  | sweep failure now jb st =>
    rcases sweep_bookings_shape failure now st jb with heq | heq
    · rw [heq]
      exact ⟨h, rfl, fun _ => rfl, Or.inl rfl⟩
    · rw [heq]
      have h2 : i < (st.bookings.map (sweepBooking now)).length := by simpa using h
      refine ⟨h2, ?_, ?_, ?_⟩
      · simp only [List.get_eq_getElem, List.getElem_map]
        by_cases hexp : isExpired now st.bookings[i] = true <;>
          simp [sweepBooking, hexp]
      · intro hterm
        simp only [List.get_eq_getElem, List.getElem_map] at hterm ⊢
        have hexp : isExpired now st.bookings[i] = false := by
          cases hexp2 : isExpired now st.bookings[i] with
          | false => rfl
          | true =>
            have hp := ((isExpired_eq_true_iff now _).mp hexp2).1
            rcases hterm with hterm | hterm <;> rw [hp] at hterm <;> cases hterm
        simp [sweepBooking, hexp]
      · simp only [List.get_eq_getElem, List.getElem_map]
        by_cases hexp : isExpired now st.bookings[i] = true
        · right
          have hp := ((isExpired_eq_true_iff now _).mp hexp).1
          exact ⟨hp, by simp [sweepBooking, hexp]⟩
        · left
          have hexp2 : isExpired now st.bookings[i] = false := by simpa using hexp
          simp [sweepBooking, hexp2]
  | newSlot st =>
    exact ⟨h, rfl, fun _ => rfl, Or.inl rfl⟩
  | migrate st =>
    by_cases hcol : st.hasExpiresAt = true
    · have heq : runExpiresAtMigration st = st := by
        simp [runExpiresAtMigration, hcol]
      rw [heq]
      exact ⟨h, rfl, fun _ => rfl, Or.inl rfl⟩
    · have hcol2 : st.hasExpiresAt = false := by simpa using hcol
      have heq : (runExpiresAtMigration st).bookings = st.bookings.map (fun b =>
          if b.status == BStatus.pending && b.expires_at.isNone then
            { b with expires_at := some (b.created_at + graceSeconds) }
          else b) := by
        simp [runExpiresAtMigration, hcol2]
      rw [heq]
      have h2 : i < (st.bookings.map (fun b =>
          if b.status == BStatus.pending && b.expires_at.isNone then
            { b with expires_at := some (b.created_at + graceSeconds) }
          else b)).length := by simpa using h
      refine ⟨h2, ?_, ?_, ?_⟩
      · simp only [List.get_eq_getElem, List.getElem_map]
        by_cases hc : (st.bookings[i].status == BStatus.pending &&
            st.bookings[i].expires_at.isNone) = true <;> simp [hc]
      · intro _
        simp only [List.get_eq_getElem, List.getElem_map]
        by_cases hc : (st.bookings[i].status == BStatus.pending &&
            st.bookings[i].expires_at.isNone) = true <;> simp [hc]
      · left
        simp only [List.get_eq_getElem, List.getElem_map]
        by_cases hc : (st.bookings[i].status == BStatus.pending &&
            st.bookings[i].expires_at.isNone) = true <;> simp [hc]

/-- Witness for C5: a sweep over a store holding a CONFIRMED booking leaves
that booking's id and status untouched. -/
theorem c5_terminal_status_frozen_witness :
    ∃ h2 : 0 < ((runExpiryCheck none 0 ownedStore
        { lastConnectionError := none }).store).bookings.length,
      (((runExpiryCheck none 0 ownedStore
          { lastConnectionError := none }).store).bookings.get ⟨0, h2⟩).id = 1 ∧
      (((runExpiryCheck none 0 ownedStore
          { lastConnectionError := none }).store).bookings.get ⟨0, h2⟩).status =
        BStatus.confirmed := by
  obtain ⟨h2, hid, hterm, _⟩ := c5_terminal_status_frozen ownedStore _
    (Step.sweep none 0 { lastConnectionError := none } ownedStore) 0 (by decide)
  refine ⟨h2, ?_, ?_⟩
  · rw [hid]; decide
  · rw [hterm (Or.inl (by decide))]; decide

/-- C6 counterexample: with an empty claimant name the lock-based bookSlot
variant does return 400, but only after a pooled connection has been
acquired, refuting the claim that no connection is acquired. -/
theorem c6_validation_counterexample :
    (bookSlot 1 "" 0 oneSlotStore).status = 400 ∧
    StorageEv.connect ∈ (bookSlot 1 "" 0 oneSlotStore).events := by
  decide

/-- C6 amended: a Claim with an empty claimant name fails with 400 before
any query is executed and without any state change; the service-path
controller variant performs no storage access at all, but the bookSlot
variant has already checked out (and then releases) a pooled connection
before validating. -/
theorem c6_validation_amended (slotId : Nat) (name : String) (now : Nat)
    (st : Store) (hname : name = "") :
    (bookSlot slotId name now st).status = 400 ∧
    (bookSlot slotId name now st).store = st ∧
    (∀ q, StorageEv.queryEv q ∉ (bookSlot slotId name now st).events) ∧
    createBookingEndpoint slotId name now st = (400, st) := by
  subst hname
  refine ⟨?_, ?_, ?_, ?_⟩
  · simp [bookSlot]
  · simp [bookSlot]
  · intro q
    simp [bookSlot]
  · simp [createBookingEndpoint]

/-- Witness for the amended C6 at a concrete request with empty name. -/
theorem c6_validation_amended_witness :
    (bookSlot 1 "" 0 oneSlotStore).status = 400 ∧
    (bookSlot 1 "" 0 oneSlotStore).store = oneSlotStore ∧
    createBookingEndpoint 1 "" 0 oneSlotStore = (400, oneSlotStore) := by
  have h := c6_validation_amended 1 "" 0 oneSlotStore rfl
  exact ⟨h.1, h.2.1, h.2.2.2⟩

/-- C7: sweeping twice at the same instant is idempotent: the second run
reports zero transitioned rows and leaves the store exactly as the first run
left it. -/
theorem c7_sweep_idempotent (st : Store) (jb jb2 : JobState) (now : Nat)
    (hcol : st.hasExpiresAt = true) :
    (runExpiryCheck none now ((runExpiryCheck none now st jb).store) jb2).swept =
        some 0 ∧
    (runExpiryCheck none now ((runExpiryCheck none now st jb).store) jb2).store =
      (runExpiryCheck none now st jb).store := by
  have hstore := runExpiryCheck_ok_store now st jb hcol
  have hcol1 : ((runExpiryCheck none now st jb).store).hasExpiresAt = true := by
    rw [hstore]; exact hcol
  have hzero : ((runExpiryCheck none now st jb).store).bookings.countP (isExpired now)
      = 0 := by
    rw [hstore]
    rw [List.countP_eq_zero]
    intro a ha
    rcases List.mem_map.mp ha with ⟨b, _, rfl⟩
    simp [isExpired_sweepBooking]
  have hmap : ((runExpiryCheck none now st jb).store).bookings.map (sweepBooking now)
      = ((runExpiryCheck none now st jb).store).bookings := by
    rw [hstore]
    simp [List.map_map, Function.comp_def, sweepBooking_idem]
  constructor
  · rw [runExpiryCheck_ok_swept now ((runExpiryCheck none now st jb).store) jb2 hcol1,
      hzero]
  · rw [runExpiryCheck_ok_store now ((runExpiryCheck none now st jb).store) jb2 hcol1,
      hmap]

/-- Witness for C7 at the sample store. -/
theorem c7_sweep_idempotent_witness :
    (runExpiryCheck none 200
        ((runExpiryCheck none 200 sampleStore { lastConnectionError := none }).store)
        { lastConnectionError := none }).swept = some 0 :=
  (c7_sweep_idempotent sampleStore { lastConnectionError := none }
    { lastConnectionError := none } 200 rfl).1

/-- C8 counterexample: with the expires_at column absent, two consecutive
ticks each emit the missing-column warning, so the condition is logged on
every tick, not once. -/
theorem c8_schema_missing_counterexample :
    ((runExpiryCheck none 0 initialStore { lastConnectionError := none }).logs ++
        (runExpiryCheck none 30
          (runExpiryCheck none 0 initialStore { lastConnectionError := none }).store
          (runExpiryCheck none 0 initialStore { lastConnectionError := none }).job).logs).count
        LogEv.columnMissingWarn = 2 ∧
    ¬ ((runExpiryCheck none 0 initialStore { lastConnectionError := none }).logs ++
        (runExpiryCheck none 30
          (runExpiryCheck none 0 initialStore { lastConnectionError := none }).store
          (runExpiryCheck none 0 initialStore { lastConnectionError := none }).job).logs).count
        LogEv.columnMissingWarn = 1 := by
  decide

/-- C8 amended: while the schema lacks the expires_at column, every sweep
tick detects the absence before running the expiry UPDATE and skips the
sweep without failing (no state change, no crash), but it emits the warning
on each such tick rather than only once. -/
theorem c8_schema_missing_amended (st : Store) (jb : JobState) (now : Nat)
    (hcol : st.hasExpiresAt = false) :
    (runExpiryCheck none now st jb).swept = none ∧
    (runExpiryCheck none now st jb).store = st ∧
    (runExpiryCheck none now st jb).job = jb ∧
    (runExpiryCheck none now st jb).logs = [LogEv.columnMissingWarn] ∧
    (runExpiryCheck none now st jb).fatal = false := by
  rw [runExpiryCheck_missing now st jb hcol]
  exact ⟨rfl, rfl, rfl, rfl, rfl⟩

/-- Witness for the amended C8 at the un-migrated empty store. -/
theorem c8_schema_missing_amended_witness :
    (runExpiryCheck none 0 initialStore { lastConnectionError := none }).swept = none ∧
    (runExpiryCheck none 0 initialStore { lastConnectionError := none }).logs =
      [LogEv.columnMissingWarn] := by
  have h := c8_schema_missing_amended initialStore { lastConnectionError := none } 0 rfl
  exact ⟨h.1, h.2.2.2.1⟩

/-- C9: a failing tick never crashes the process and changes no store row; a
connectivity failure is reported exactly when none was reported in the last
60000 ms (recording the report time), so consecutive identical connectivity
failures within 60 seconds of a report stay silent, while a
non-connectivity error is reported on every occurrence. -/
theorem c9_connectivity_rate_limited (e e2 : DbError) (now now2 : Nat) (st : Store)
    (jb : JobState) :
    (runExpiryCheck (some e) now st jb).fatal = false ∧
    (runExpiryCheck (some e) now st jb).store = st ∧
    (runExpiryCheck (some e) now st jb).swept = none ∧
    (isConnCode e.code = true →
      (LogEv.connIssueWarn ∈ (runExpiryCheck (some e) now st jb).logs ↔
        connLogDue jb now = true)) ∧
    (isConnCode e.code = true → connLogDue jb now = true →
      (runExpiryCheck (some e) now st jb).job = { lastConnectionError := some now }) ∧
    (isConnCode e.code = true → connLogDue jb now = false →
      (runExpiryCheck (some e) now st jb).logs = [] ∧
        (runExpiryCheck (some e) now st jb).job = jb) ∧
    (isConnCode e.code = false →
      (runExpiryCheck (some e) now st jb).logs ≠ []) ∧
    (isConnCode e.code = true → isConnCode e2.code = true →
      connLogDue jb now = true → now2 - now ≤ 60000 →
      (runExpiryCheck (some e2) now2 st
        ((runExpiryCheck (some e) now st jb).job)).logs = []) := by
  have hrun : runExpiryCheck (some e) now st jb = onTickError e now st jb := rfl
  have hframe := onTickError_frame e now st jb
  refine ⟨?_, ?_, ?_, ?_, ?_, ?_, ?_, ?_⟩
  · rw [hrun]; exact hframe.2.2
  · rw [hrun]; exact hframe.1
  · rw [hrun]; exact hframe.2.1
  · intro hc
    rw [hrun, onTickError_conn e now st jb hc]
    by_cases hd : connLogDue jb now = true
    · simp [hd]
    · simp only [Bool.not_eq_true] at hd
      simp [hd]
  · intro hc hd
    rw [hrun, onTickError_conn e now st jb hc, if_pos hd]
  · intro hc hd
    rw [hrun, onTickError_conn e now st jb hc]
    rw [if_neg (by simp [hd])]
    exact ⟨rfl, rfl⟩
  · intro hc
    rw [hrun]
    exact (onTickError_nonconn e now st jb hc).1
  · intro hc hc2 hd hle
    rw [hrun, onTickError_conn e now st jb hc, if_pos hd]
    have hrun2 : runExpiryCheck (some e2) now2 st
        ({ lastConnectionError := some now } : JobState) =
        onTickError e2 now2 st { lastConnectionError := some now } := rfl
    rw [hrun2, onTickError_conn e2 now2 st { lastConnectionError := some now } hc2]
    rw [if_neg]
    simp [connLogDue]
    omega

/-- Witness for C9: a first connection refusal at time 0 is reported, and an
identical refusal 30 seconds later is silenced. -/
theorem c9_connectivity_rate_limited_witness :
    (runExpiryCheck (some { code := "ECONNREFUSED", message := "connect ECONNREFUSED" })
        0 sampleStore { lastConnectionError := none }).fatal = false ∧
    (LogEv.connIssueWarn ∈
      (runExpiryCheck (some { code := "ECONNREFUSED", message := "connect ECONNREFUSED" })
        0 sampleStore { lastConnectionError := none }).logs) ∧
    (runExpiryCheck (some { code := "ECONNREFUSED", message := "connect ECONNREFUSED" })
        30000 sampleStore
        ((runExpiryCheck
          (some { code := "ECONNREFUSED", message := "connect ECONNREFUSED" })
          0 sampleStore { lastConnectionError := none }).job)).logs = [] := by
  have h := c9_connectivity_rate_limited
    { code := "ECONNREFUSED", message := "connect ECONNREFUSED" }
    { code := "ECONNREFUSED", message := "connect ECONNREFUSED" }
    0 30000 sampleStore { lastConnectionError := none }
  refine ⟨h.1, ?_, ?_⟩
  · exact (h.2.2.2.1 rfl).mpr rfl
  · exact h.2.2.2.2.2.2.2 rfl rfl rfl (by decide)

/-- C10: on a reachable store whose schema carries the expires_at column
(on an un-migrated schema both variants fail their bookings INSERT with an
undefined-column error and return 500), for a request naming an existing
slot with a non-empty patient name, the lock-based bookSlot variant and the
uniqueness-only service variant return the same status (201 or 409) and
produce the same final store; on the 201 outcome the store holds a CONFIRMED
booking for the slot. -/
theorem c10_variants_equivalent (s : Nat) (name : String) (now : Nat) (st : Store)
    (hreach : Reachable st) (hcol : st.hasExpiresAt = true) (hs : s ∈ st.slots)
    (hname : name ≠ "") :
    (bookSlot s name now st).status = (createBookingEndpoint s name now st).1 ∧
    (bookSlot s name now st).store = (createBookingEndpoint s name now st).2 ∧
    ((bookSlot s name now st).status = 201 ∨
      (bookSlot s name now st).status = 409) ∧
    ((bookSlot s name now st).status = 201 →
      ∃ b ∈ ((bookSlot s name now st).store).bookings,
        b.slot_id = s ∧ b.status = BStatus.confirmed) := by
  have hpos : 0 < s := (reachable_inv hreach).2 s hs
  have h0 : s ≠ 0 := Nat.pos_iff_ne_zero.mp hpos
  by_cases ht : st.booking_slots.any (fun r => r.slot_id == s) = true
  · have hb := bookSlot_conflict now hcol h0 hname hs ht
    have hsvc := svcEndpoint_conflict now hcol hname hs ht
    refine ⟨?_, ?_, Or.inr hb.1, ?_⟩
    · rw [hb.1, hsvc]
    · rw [hb.2, hsvc]
    · intro h201
      rw [hb.1] at h201
      exact absurd h201 (by decide)
  · have ht2 : st.booking_slots.any (fun r => r.slot_id == s) = false := by
      simpa using ht
    have hb := bookSlot_win now hcol h0 hname hs ht2
    have hsvc := svcEndpoint_win now hcol hname hs ht2
    refine ⟨?_, ?_, Or.inl hb.1, ?_⟩
    · rw [hb.1, hsvc]
    · rw [hb.2, hsvc]
    · intro _
      rw [hb.2]
      refine ⟨confirmRow (freshBookingId st.bookings) now
        (pendingRow s name now (freshBookingId st.bookings)), ?_, ?_, ?_⟩
      · exact List.mem_map_of_mem _
          (List.mem_append_right _ (List.mem_singleton_self _))
      · simp [confirmRow, pendingRow]
      · simp [confirmRow, pendingRow]

/-- Witness for C10 on the reachable, migrated one-slot store. -/
theorem c10_variants_equivalent_witness :
    (bookSlot 1 "Alice" 0 (createSlot (runExpiresAtMigration initialStore))).status =
      (createBookingEndpoint 1 "Alice" 0
        (createSlot (runExpiresAtMigration initialStore))).1 ∧
    (bookSlot 1 "Alice" 0 (createSlot (runExpiresAtMigration initialStore))).store =
      (createBookingEndpoint 1 "Alice" 0
        (createSlot (runExpiresAtMigration initialStore))).2 := by
  have h := c10_variants_equivalent 1 "Alice" 0
    (createSlot (runExpiresAtMigration initialStore))
    (Relation.ReflTransGen.tail
      (Relation.ReflTransGen.single (Step.migrate initialStore))
      (Step.newSlot (runExpiresAtMigration initialStore)))
    (by decide) (by decide) (by decide)
  exact ⟨h.1, h.2.1⟩

end MedReserve
